import Mathlib

/-!
Verification development for the forensic-probe desktop utility.

The repository consists of two near-duplicate `systemUtils` modules (the
first occupying lines 1-4293 of `src/utils/systemUtils.js`, the second the
remainder of the file), an Electron main process that registers the IPC
handlers, and GUI glue.  The probes shell out to OS commands or walk the
filesystem, then post-process the collected findings with pure
string/list logic.  This file gives a shallow embedding of that pure
post-processing logic: the effectful collection phases (directory walks,
`exec` calls) are modelled by quantifying over the collected findings or
over the success/failure outcome of each effectful step, while every
filter / dedup / sort / format step is translated directly from the
JavaScript source.  Function names carry a `1` or `2` suffix according to
which of the two `systemUtils` copies they come from.
-/

/-! ### JavaScript string primitives -/

/-- Model of JavaScript `String.prototype.toLowerCase` (the repository only
applies it to ASCII data; `Char.toLower` agrees with JS on ASCII). -/
def lowerStr (s : String) : String :=
  String.mk (s.data.map Char.toLower)

/-- Model of JavaScript `hay.includes(needle)`: substring containment. -/
def jsIncludes (hay needle : String) : Bool :=
  decide (needle.data <:+: hay.data)

/-- Model of a JavaScript regex test `/suffix$/` : `s` ends with the given
suffix. -/
def jsEndsWith (s suffix : String) : Bool :=
  suffix.data.isSuffixOf s.data

/-- Model of JavaScript `s.substring(0, n)`. -/
def jsSubstringTo (n : Nat) (s : String) : String :=
  String.mk (s.data.take n)

/-! ### JavaScript `Array.prototype.sort`

Both `systemUtils` modules sort findings with comparators of the shape
`(a, b) => keyOf(b) - keyOf(a)` (descending by a numeric key).  ECMAScript
requires `Array.prototype.sort` to be stable, and a stable sort by a total
preorder has a unique result, so we model it by a stable insertion sort
by the extracted key, descending. -/

/-- Insert `x` in front of the first element whose key is not greater than
`key x`; among equal keys the earlier input element stays first, matching
the stability guarantee of `Array.prototype.sort`. -/
def insertDesc (key : α → Int) (x : α) : List α → List α
  | [] => [x]
  | y :: ys => if key x ≥ key y then x :: y :: ys else y :: insertDesc key x ys

/-- Stable descending sort by `key`; model of
`arr.sort((a, b) => key(b) - key(a))`. -/
def jsSortByDesc (key : α → Int) : List α → List α
  | [] => []
  | x :: xs => insertDesc key x (jsSortByDesc key xs)

/-! ### `getOriginalNameGuess` (both modules)

First module, systemUtils.js lines 293-303: matches the filename against
`/^(.+)\.(jar|exe|dll|bat|vbs)\.(txt|png|jpg|jpeg)$/i` and returns
`match[1] + '.' + match[2]`, otherwise `null`.  Because neither
alternation set contains a dot, the regex matches exactly when the name
has at least two dots, the segment between the last two dots is one of
the first set (case-insensitively), the final segment is one of the
second set, and the part before them is non-empty; the greedy `(.+)`
captures everything before the last two segments with its original
casing. -/

/-- Alternation set `(jar|exe|dll|bat|vbs)` of the double-extension regex. -/
def doubleExtReal : List String := ["jar", "exe", "dll", "bat", "vbs"]

/-- Alternation set `(txt|png|jpg|jpeg)` of the double-extension regex. -/
def doubleExtDisguise : List String := ["txt", "png", "jpg", "jpeg"]

/-- First module `getOriginalNameGuess` (lines 293-303). -/
def getOriginalNameGuess1 (filename : String) : Option String :=
  let parts := filename.data.splitOn '.'
  let n := parts.length
  if n ≥ 3 then
    let base := List.intercalate ['.'] (parts.take (n - 2))
    let e2 := parts.getD (n - 2) []
    let e3 := parts.getD (n - 1) []
    if !base.isEmpty
        && doubleExtReal.contains (String.mk (e2.map Char.toLower))
        && doubleExtDisguise.contains (String.mk (e3.map Char.toLower)) then
      some (String.mk (base ++ '.' :: e2))
    else
      none
  else
    none

/-- Words of the rename-pattern regex
`/(\.|_)(old|new|bak|backup|copy|renamed|changed|\d{4}-\d{2}-\d{2})/`, in
alternation order (JavaScript alternation is first-match, so `bak` shadows
`backup`). -/
def renameSuffixWords : List (List Char) :=
  ["old".data, "new".data, "bak".data, "backup".data, "copy".data,
   "renamed".data, "changed".data]

/-- The `\d{4}-\d{2}-\d{2}` alternative of the rename-pattern regex,
tested at the head of `cs`. -/
def matchesDateDigits (cs : List Char) : Bool :=
  match cs with
  | a :: b :: c :: d :: e :: f :: g :: h :: i :: j :: _ =>
      a.isDigit && b.isDigit && c.isDigit && d.isDigit && e = '-'
        && f.isDigit && g.isDigit && h = '-' && i.isDigit && j.isDigit
  | _ => false

/-- Length of the rename-pattern match starting at the head of `cs`, if
any: a `.` or `_` followed by the first alternation word that matches, or
by a `\d{4}-\d{2}-\d{2}` date. -/
def renameMatchLen (cs : List Char) : Option Nat :=
  match cs with
  | [] => none
  | c :: rest =>
    if c = '.' || c = '_' then
      match renameSuffixWords.find? (fun w => w.isPrefixOf rest) with
      | some w => some (1 + w.length)
      | none => if matchesDateDigits rest then some 11 else none
    else
      none

/-- Model of `filename.replace(renameRegex, '')` with no `g` flag: remove
the leftmost match only. -/
def stripRenamePattern : List Char → List Char
  | [] => []
  | c :: rest =>
    match renameMatchLen (c :: rest) with
    | some n => (c :: rest).drop n
    | none => c :: stripRenamePattern rest

/-- Second module `getOriginalNameGuess` (lines 4530-4542):
`parts = filename.split('.')`; with more than two parts it returns
`parts[0] + '.' + parts[parts.length-1]`, otherwise the filename with the
first rename-pattern match removed. -/
def getOriginalNameGuess2 (filename : String) : String :=
  let parts := filename.data.splitOn '.'
  if parts.length > 2 then
    String.mk (parts.headD [] ++ '.' :: parts.getLastD [])
  else
    String.mk (stripRenamePattern filename.data)

/-! ### `getRecentlyExecutedJars` (both modules): dedup and sort

Collection (registry / execution history / Java logs in the first module,
WMI / prefetch / file access / `ps` in the second) is effectful; we embed
the post-processing that both modules apply to the collected array.
`startTimeVal` stands for the numeric time value the comparator obtains
from the record's `startTime` (`new Date(x).getTime()` for the string
form); Date parsing itself is not modelled, only the resulting number. -/

/-- One collected executed-JAR finding. -/
structure ExecJarFinding where
  name : String
  path : String
  startTimeVal : Int
  origin : String
deriving DecidableEq

/-- First module dedup loop (lines 671-682): a `Set` of the *verbatim*
paths; an item is kept when its exact `path` string was not seen before. -/
def dedupExecutedJarsLoop1 : List ExecJarFinding → List ExecJarFinding → List String →
    List ExecJarFinding
  | [], acc, _ => acc
  | item :: rest, acc, seen =>
    if seen.contains item.path then
      dedupExecutedJarsLoop1 rest acc seen
    else
      dedupExecutedJarsLoop1 rest (acc ++ [item]) (seen ++ [item.path])

/-- First module: `uniqueResults` built from the collected `result`. -/
def dedupExecutedJars1 (result : List ExecJarFinding) : List ExecJarFinding :=
  dedupExecutedJarsLoop1 result [] []

/-- Second module dedup loop (lines 4935-4947): the `Set` holds
`jar.path.toLowerCase()`, so paths are compared case-insensitively. -/
def dedupExecutedJarsLoop2 : List ExecJarFinding → List ExecJarFinding → List String →
    List ExecJarFinding
  | [], acc, _ => acc
  | jar :: rest, acc, seen =>
    if seen.contains (lowerStr jar.path) then
      dedupExecutedJarsLoop2 rest acc seen
    else
      dedupExecutedJarsLoop2 rest (acc ++ [jar]) (seen ++ [lowerStr jar.path])

/-- Second module: `uniqueJars` built from the collected `executedJars`. -/
def dedupExecutedJars2 (executedJars : List ExecJarFinding) : List ExecJarFinding :=
  dedupExecutedJarsLoop2 executedJars [] []

/-- First module `getRecentlyExecutedJars` post-processing (lines 671-689):
dedup by verbatim path, then sort by start time descending. -/
def getRecentlyExecutedJars1post (collected : List ExecJarFinding) : List ExecJarFinding :=
  jsSortByDesc (fun j => j.startTimeVal) (dedupExecutedJars1 collected)

/-- Second module `getRecentlyExecutedJars` post-processing
(lines 4935-4949): dedup by lowercased path, then sort by start time
descending. -/
def getRecentlyExecutedJars2post (collected : List ExecJarFinding) : List ExecJarFinding :=
  jsSortByDesc (fun j => j.startTimeVal) (dedupExecutedJars2 collected)

/-- Concrete finding used to exercise the dedup behaviour. -/
def execJarUpper : ExecJarFinding :=
  { name := "Hack.jar", path := "C:/Mods/Hack.jar", startTimeVal := 0,
    origin := "Prefetch" }

/-- The same file collected a second time with a differently-cased path. -/
def execJarLower : ExecJarFinding :=
  { name := "hack.jar", path := "c:/mods/hack.jar", startTimeVal := 0,
    origin := "Historial de ejecución" }

/-! ### `findAllJarFiles` (both modules)

The directory walks (`searchJarFilesRecursively`) are effectful; we embed
the post-treatment of the collected records. -/

/-- One JAR file record produced by the recursive search. -/
structure JarFileInfo where
  name : String
  path : String
  size : Nat
  lastModified : Int
  createdTime : Int
deriving DecidableEq

/-- First module `findAllJarFiles` (lines 16-47): after the walks,
`result.sort((a, b) => b.lastModified - a.lastModified)`. -/
def findAllJarFiles1post (collected : List JarFileInfo) : List JarFileInfo :=
  jsSortByDesc (fun f => f.lastModified) collected

/-- Second module `findAllJarFiles` (lines 4307-4363): common locations
are walked first; the whole drives are walked only when fewer than 10
files were found; `jarFiles` is returned with no sort. -/
def findAllJarFiles2post (common drives : List JarFileInfo) : List JarFileInfo :=
  if common.length < 10 then common ++ drives else common

/-- An old JAR found first (in a common location). -/
def jarOld : JarFileInfo :=
  { name := "old.jar", path := "C:/Users/x/Downloads/old.jar", size := 10,
    lastModified := 100, createdTime := 100 }

/-- A newer JAR found later (on a drive walk). -/
def jarNew : JarFileInfo :=
  { name := "new.jar", path := "D:/new.jar", size := 20,
    lastModified := 500, createdTime := 500 }

/-! ### `getRecentlyDeletedFiles` (both modules) -/

/-- One deleted-file finding; `deletedTime` is the numeric time value the
comparator subtraction uses. -/
structure DeletedFinding where
  name : String
  path : String
  deletedTime : Int
deriving DecidableEq

/-- First module `getRecentlyDeletedFiles` (lines 308-347): the collected
findings are sorted with `(a, b) => b.deletedTime - a.deletedTime` and
returned whole. -/
def getRecentlyDeletedFiles1post (collected : List DeletedFinding) : List DeletedFinding :=
  jsSortByDesc (fun f => f.deletedTime) collected

/-- Second module `getRecentlyDeletedFiles` (lines 4548-4610): the same
sort followed by `.slice(0, 20)`. -/
def getRecentlyDeletedFiles2post (collected : List DeletedFinding) : List DeletedFinding :=
  (jsSortByDesc (fun f => f.deletedTime) collected).take 20

/-! ### Minecraft mod scans (first module)

`scanMinecraftMods` (lines 3843-3998) flags a mod file whose lowercased
name contains a suspicious keyword and no whitelisted substring;
`checkMinecraftModFolders` (lines 1912-2015) flags on suspicious keywords
alone and has no whitelist. -/

/-- `suspiciousKeywords` of `scanMinecraftMods` (lines 3859-3866). -/
def scanSuspiciousKeywords : List String :=
  ["hack", "cheat", "xray", "autoclicker", "killaura", "bhop", "flight",
   "wallhack", "noclip", "speed", "aimbot", "esp", "tracers", "reach",
   "bypass", "ghostclient", "baritone", "nuker", "autotool", "blink",
   "fastplace", "nofall", "antiknockback", "criticals", "scaffold",
   "timer", "freecam", "fullbright", "jesus", "phase", "spoofer",
   "macro", "bot", "inject", "pvp", "autofish", "aura", "client"]

/-- `whitelistedMods` of `scanMinecraftMods` (lines 3869-3879). -/
def scanWhitelistedMods : List String :=
  ["optifine", "sodium", "phosphor", "lithium", "fabric-api",
   "forge", "jei", "rei", "worldedit", "performance", "mod-menu",
   "shulkertooltip", "shaders", "dynamiclights", "appleskin",
   "journeymap", "voxelmap", "xaero", "minimap", "inventory",
   "craftguide", "craftpresence", "ding", "sound", "loot", "voicechat",
   "terralith", "biomes", "better", "durability", "mouse", "tweaks",
   "curios", "baubles", "gadget", "utility", "ftb", "mekanism",
   "thermal", "tinkers", "blood", "botania", "computercraft",
   "chisel", "create", "refined", "storage", "applied"]

/-- `suspiciousNameKeywords` of `scanMinecraftMods` (lines 3957-3959). -/
def scanSuspiciousNameKeywords (fileName : String) : List String :=
  scanSuspiciousKeywords.filter (fun keyword => jsIncludes (lowerStr fileName) keyword)

/-- `isWhitelisted` of `scanMinecraftMods` (lines 3962-3964). -/
def scanModIsWhitelisted (fileName : String) : Bool :=
  scanWhitelistedMods.any (fun whiteMod => jsIncludes (lowerStr fileName) whiteMod)

/-- The flagging condition of `scanMinecraftMods` (line 3967):
`suspiciousNameKeywords.length > 0 && !isWhitelisted` decides whether the
mod is pushed onto `suspiciousMods`. -/
def scanModFlagged (fileName : String) : Bool :=
  decide (0 < (scanSuspiciousNameKeywords fileName).length) && !scanModIsWhitelisted fileName

/-- `suspiciousKeywords` of `checkMinecraftModFolders` (lines 1922-1928). -/
def folderSuspiciousKeywords : List String :=
  ["hack", "cheat", "xray", "autoclicker", "killaura", "bhop", "flight",
   "wallhack", "noclip", "speed", "aimbot", "esp", "tracers", "reach",
   "bypass", "ghostclient", "baritone", "nuker", "autotool", "blink",
   "fastplace", "nofall", "antiknockback", "criticals", "scaffold",
   "timer", "freecam", "fullbright", "jesus", "phase", "spoofer"]

/-- The flagging condition of `checkMinecraftModFolders`
(lines 1944-1955): `suspicious` is set exactly when the lowercased mod
name contains some keyword; there is no whitelist in this function. -/
def folderModFlagged (modName : String) : Bool :=
  decide (0 < (folderSuspiciousKeywords.filter
    (fun keyword => jsIncludes (lowerStr modName) keyword)).length)

/-! ### IPC handlers (main process)

Every `ipcMain.handle` registration in the main process has the body
`try { return await probe(args) } catch (error) { return {error:
error.message} }`.  We embed each handler as a function from the outcome
of its `try` block (the value it would return, or the thrown error's
message) to the IPC response. -/

/-- Outcome of a JavaScript `await` computation: a value or a thrown
error message. -/
inductive JsOutcome (α : Type) where
  | ok (value : α)
  | thrown (message : String)

/-- What an IPC handler returns to the renderer: the probe result, or an
`{error: message}` object. -/
inductive IpcResponse (α : Type) where
  | result (value : α)
  | errorObj (message : String)
deriving DecidableEq

/-- Handler for `find-jar-files` (main process lines 49-56). -/
def handleFindJarFiles (o : JsOutcome α) : IpcResponse α :=
  match o with
  | .ok v => .result v
  | .thrown m => .errorObj m

/-- Handler for `check-extension-changes` (lines 58-65). -/
def handleCheckExtensionChanges (o : JsOutcome α) : IpcResponse α :=
  match o with
  | .ok v => .result v
  | .thrown m => .errorObj m

/-- Handler for `get-deleted-files` (lines 67-74). -/
def handleGetDeletedFiles (o : JsOutcome α) : IpcResponse α :=
  match o with
  | .ok v => .result v
  | .thrown m => .errorObj m

/-- Handler for `get-executed-jars` (lines 76-83). -/
def handleGetExecutedJars (o : JsOutcome α) : IpcResponse α :=
  match o with
  | .ok v => .result v
  | .thrown m => .errorObj m

/-- Handler for `check-usb-disconnection` (lines 85-92). -/
def handleCheckUsbDisconnection (o : JsOutcome α) : IpcResponse α :=
  match o with
  | .ok v => .result v
  | .thrown m => .errorObj m

/-- Handler for `check-screen-recording` (lines 94-101). -/
def handleCheckScreenRecording (o : JsOutcome α) : IpcResponse α :=
  match o with
  | .ok v => .result v
  | .thrown m => .errorObj m

/-- Handler for `open-browser-history` (lines 103-110). -/
def handleOpenBrowserHistory (o : JsOutcome α) : IpcResponse α :=
  match o with
  | .ok v => .result v
  | .thrown m => .errorObj m

/-- Handler for `detect-browsers` (lines 112-119). -/
def handleDetectBrowsers (o : JsOutcome α) : IpcResponse α :=
  match o with
  | .ok v => .result v
  | .thrown m => .errorObj m

/-- Handler for `detect-minecraft-cheats` (lines 121-128). -/
def handleDetectMinecraftCheats (o : JsOutcome α) : IpcResponse α :=
  match o with
  | .ok v => .result v
  | .thrown m => .errorObj m

/-- Handler for `detect-stopped-services` (lines 130-137). -/
def handleDetectStoppedServices (o : JsOutcome α) : IpcResponse α :=
  match o with
  | .ok v => .result v
  | .thrown m => .errorObj m

/-- Handler for `get-folder-history` (lines 139-146). -/
def handleGetFolderHistory (o : JsOutcome α) : IpcResponse α :=
  match o with
  | .ok v => .result v
  | .thrown m => .errorObj m

/-- Handler for `get-execution-history` (lines 148-155). -/
def handleGetExecutionHistory (o : JsOutcome α) : IpcResponse α :=
  match o with
  | .ok v => .result v
  | .thrown m => .errorObj m

/-- Handler for `open-minecraft-files` (lines 157-164). -/
def handleOpenMinecraftFiles (o : JsOutcome α) : IpcResponse α :=
  match o with
  | .ok v => .result v
  | .thrown m => .errorObj m

/-- Handler for `open-file-location` (lines 166-173). -/
def handleOpenFileLocation (o : JsOutcome α) : IpcResponse α :=
  match o with
  | .ok v => .result v
  | .thrown m => .errorObj m

/-- Handler for `get-command-history` (lines 175-182). -/
def handleGetCommandHistory (o : JsOutcome α) : IpcResponse α :=
  match o with
  | .ok v => .result v
  | .thrown m => .errorObj m

/-- Handler for `export-results` (lines 184-207); its `try` block (the
save dialog, the optional `writeFile`, and the `{success}` / `{canceled}`
object it returns) is the computation whose outcome is `o`. -/
def handleExportResults (o : JsOutcome α) : IpcResponse α :=
  match o with
  | .ok v => .result v
  | .thrown m => .errorObj m

/-- The sixteen `ipcMain.handle` registrations of the main process, in
source order, with their channel names. -/
def ipcHandlers (α : Type) : List (String × (JsOutcome α → IpcResponse α)) :=
  [("find-jar-files", handleFindJarFiles),
   ("check-extension-changes", handleCheckExtensionChanges),
   ("get-deleted-files", handleGetDeletedFiles),
   ("get-executed-jars", handleGetExecutedJars),
   ("check-usb-disconnection", handleCheckUsbDisconnection),
   ("check-screen-recording", handleCheckScreenRecording),
   ("open-browser-history", handleOpenBrowserHistory),
   ("detect-browsers", handleDetectBrowsers),
   ("detect-minecraft-cheats", handleDetectMinecraftCheats),
   ("detect-stopped-services", handleDetectStoppedServices),
   ("get-folder-history", handleGetFolderHistory),
   ("get-execution-history", handleGetExecutionHistory),
   ("open-minecraft-files", handleOpenMinecraftFiles),
   ("open-file-location", handleOpenFileLocation),
   ("get-command-history", handleGetCommandHistory),
   ("export-results", handleExportResults)]

/-! ### Filesystem-write footprint of the exported operations

Each export of the two `systemUtils` modules is audited (body and
transitive callees) for filesystem mutations; everything else they do is
reading (readdir / stat / readFile / existsSync) or running commands that
only query.  The mutations found in the source are:

* first module `detectMinecraftCheats` → `checkBrowserHistoryFiles`
  (lines 1822, 1853): `copyFileSync` of a browser history file to a temp
  path and `unlinkSync` of that copy;
* first module `getCommandHistory` (lines 3333, 3339): creation of a temp
  file through the shell redirect `doskey /history > tempHistoryPath`
  and `fs.unlink` of it;
* first module `registerSelfDestruct` (lines 3488-3516): `writeFileSync`
  of a `.bat` script into the temp directory; the spawned script then
  deletes the application executable and itself;
* second module `detectMinecraftCheats` (lines 5647/5679, 5697/5728,
  5746/5776, 5790/5820): `copyFileSync` / `unlinkSync` of temporary
  copies of browser history databases. -/

/-- A filesystem mutation performed by an exported operation. -/
inductive FsWriteOp where
  | createFile
  | deleteFile
deriving DecidableEq, Fintype

/-- The exports of the first `systemUtils` module (lines 4273-4293) and
of the second (lines 6563-6579); `m2_minecraftCheatsDatabase` is a static
data table, not a function. -/
inductive SystemUtilsExport where
  | m1_findAllJarFiles
  | m1_checkFileExtensionChanges
  | m1_getRecentlyDeletedFiles
  | m1_getRecentlyExecutedJars
  | m1_checkUSBDisconnection
  | m1_checkScreenRecording
  | m1_openBrowserHistory
  | m1_detectBrowsers
  | m1_detectMinecraftCheats
  | m1_detectStoppedServices
  | m1_getFolderHistory
  | m1_getCompleteExecutionHistory
  | m1_openMinecraftFiles
  | m1_openFileLocation
  | m1_getCommandHistory
  | m1_registerSelfDestruct
  | m1_analyzeProcesses
  | m1_scanMinecraftMods
  | m1_detectInjections
  | m2_findAllJarFiles
  | m2_checkFileExtensionChanges
  | m2_getRecentlyDeletedFiles
  | m2_getRecentlyExecutedJars
  | m2_checkUSBDisconnection
  | m2_checkScreenRecording
  | m2_openBrowserHistory
  | m2_detectBrowsers
  | m2_detectMinecraftCheats
  | m2_detectStoppedServices
  | m2_getFolderHistory
  | m2_getCompleteExecutionHistory
  | m2_openMinecraftFiles
  | m2_openFileLocation
  | m2_getCommandHistory
  | m2_minecraftCheatsDatabase
deriving DecidableEq, Fintype

/-- Filesystem mutations performed by each export, transcribed from the
audit above; `[]` means the operation (with its callees) only reads. -/
def fsWriteOps : SystemUtilsExport → List FsWriteOp
  | .m1_findAllJarFiles => []
  | .m1_checkFileExtensionChanges => []
  | .m1_getRecentlyDeletedFiles => []
  | .m1_getRecentlyExecutedJars => []
  | .m1_checkUSBDisconnection => []
  | .m1_checkScreenRecording => []
  | .m1_openBrowserHistory => []
  | .m1_detectBrowsers => []
  | .m1_detectMinecraftCheats => [.createFile, .deleteFile]
  | .m1_detectStoppedServices => []
  | .m1_getFolderHistory => []
  | .m1_getCompleteExecutionHistory => []
  | .m1_openMinecraftFiles => []
  | .m1_openFileLocation => []
  | .m1_getCommandHistory => [.createFile, .deleteFile]
  | .m1_registerSelfDestruct => [.createFile, .deleteFile]
  | .m1_analyzeProcesses => []
  | .m1_scanMinecraftMods => []
  | .m1_detectInjections => []
  | .m2_findAllJarFiles => []
  | .m2_checkFileExtensionChanges => []
  | .m2_getRecentlyDeletedFiles => []
  | .m2_getRecentlyExecutedJars => []
  | .m2_checkUSBDisconnection => []
  | .m2_checkScreenRecording => []
  | .m2_openBrowserHistory => []
  | .m2_detectBrowsers => []
  | .m2_detectMinecraftCheats => [.createFile, .deleteFile]
  | .m2_detectStoppedServices => []
  | .m2_getFolderHistory => []
  | .m2_getCompleteExecutionHistory => []
  | .m2_openMinecraftFiles => []
  | .m2_openFileLocation => []
  | .m2_getCommandHistory => []
  | .m2_minecraftCheatsDatabase => []

/-- Whether an export's mutations are the browser-history temp-copy
handling that the specification singles out as the sole exception (both
modules perform it inside `detectMinecraftCheats`). -/
def isBrowserHistoryTempUse : SystemUtilsExport → Bool
  | .m1_detectMinecraftCheats => true
  | .m2_detectMinecraftCheats => true
  | _ => false

/-! ### `checkBrowserHistoryFiles` temp-copy lifecycle (first module)

For each history file (lines 1816-1900) the loop body is

  try {
    copyFileSync(historyFile.path, tempHistoryPath);      // create copy
    const {stdout} = await execAsync(command);            // SQL query on the copy
    try { unlinkSync(tempHistoryPath); } catch (e) {}     // delete copy
    if (stdout.trim()) { try { parse... } catch {...} }
  } catch (error) { console.error(...); }

We embed it as an exception-monad computation over one bit of state,
whether the temporary copy currently exists, parametrised by whether each
effectful step succeeds or throws. -/

/-- A JavaScript computation over the "temp copy exists" state: from a
state it produces a value or a thrown message, and the new state. -/
def TempComp (α : Type) : Type := Bool → Except String α × Bool

/-- Sequencing (`;` / `await`): on a throw the rest is skipped. -/
def tempBind (x : TempComp α) (f : α → TempComp β) : TempComp β := fun s =>
  match x s with
  | (.ok v, s') => f v s'
  | (.error e, s') => (.error e, s')

/-- A pure step. -/
def tempPure (v : α) : TempComp α := fun s => (.ok v, s)

/-- `try { body } catch (e) { handler }`. -/
def tempTryCatch (body : TempComp α) (handler : String → TempComp α) : TempComp α := fun s =>
  match body s with
  | (.ok v, s') => (.ok v, s')
  | (.error e, s') => handler e s'

/-- `fs.copyFileSync(historyFile.path, tempHistoryPath)` (line 1822):
creates the copy, or throws leaving the state unchanged. -/
def tempCopyStep (ok : Bool) : TempComp Unit := fun s =>
  if ok then (.ok (), true) else (.error "copyFileSync failed", s)

/-- `await execAsync(command)` (line 1850): the PowerShell SQL query over
the temporary copy; does not touch the copy. -/
def queryStep (ok : Bool) : TempComp String := fun s =>
  if ok then (.ok "rows", s) else (.error "execAsync failed", s)

/-- `fs.unlinkSync(tempHistoryPath)` (line 1853): removes the copy, or
throws leaving it in place. -/
def unlinkStep (ok : Bool) : TempComp Unit := fun s =>
  if ok then (.ok (), false) else (.error "unlinkSync failed", s)

/-- The JSON parsing of the query output (lines 1860-1896); it never
touches the copy and its failures are caught locally. -/
def parseStep (ok : Bool) : TempComp Unit := fun s =>
  if ok then (.ok (), s) else (.error "JSON.parse failed", s)

/-- The per-history-file loop body of `checkBrowserHistoryFiles`
(lines 1816-1900), with the success of each effectful step as a
parameter. -/
def processHistoryFile1 (copyOk queryOk unlinkOk parseOk : Bool) : TempComp Unit :=
  tempTryCatch
    (tempBind (tempCopyStep copyOk) (fun _ =>
      tempBind (queryStep queryOk) (fun _ =>
        tempBind (tempTryCatch (unlinkStep unlinkOk) (fun _ => tempPure ())) (fun _ =>
          tempTryCatch (parseStep parseOk) (fun _ => tempPure ())))))
    (fun _ => tempPure ())

/-- Whether an invocation of the loop body, started with no temp copy on
disk, finishes with the temporary copy still on disk. -/
def tempCopyLeftBehind (copyOk queryOk unlinkOk parseOk : Bool) : Bool :=
  (processHistoryFile1 copyOk queryOk unlinkOk parseOk false).2

/-! ### `checkScreenRecording` (both modules)

First module (lines 991-1245): a `result = {recording: false,
applications: []}` record is threaded through per-item loops over the
parsed outputs of `tasklist`, `Get-Service`, `Get-WmiObject` (Windows),
`ps` and `tccutil` (macOS), `ps` and the compositor grep (Linux).  We
embed the per-item updates as a fold over the parsed items.  Second
module (lines 5078-5207): a flat `detectedApps` list is accumulated and
the function returns `{recording: detectedApps.length > 0, applications:
detectedApps}`, or `{recording: false, applications: []}` from its
outermost catch. -/

/-- `recordingApps` of the first module (lines 999-1026). -/
def recordingApps1 : List String :=
  ["OBS Studio", "OBS", "Streamlabs OBS", "XSplit", "Bandicam",
   "Camtasia", "ScreenRecorder", "Fraps", "Action!", "ShareX",
   "Screencast-O-Matic", "Debut", "CamStudio", "ScreenFlow",
   "QuickTime Player", "ScreencastX", "ScreenRec",
   "Movavi Screen Recorder", "Icecream Screen Recorder", "Apowersoft",
   "ScreenToGif", "DU Recorder", "AZ Screen Recorder", "FBX", "FFmpeg",
   "Screen Recorder"]

/-- `falsePositives` of the first module (lines 1029-1044). -/
def falsePositives1 : List String :=
  ["Capture One", "Capture NX", "Capture Manager", "Capture Service",
   "Windows Media Player", "Windows Photo Viewer", "Photos", "Camera",
   "ScreenSaver", "ScreenConnect", "Screen Time", "Microsoft Teams",
   "Adobe Capture", "TeamViewer"]

/-- The `result` record threaded through `checkScreenRecording`. -/
structure RecordingResult where
  recording : Bool
  applications : List String
deriving DecidableEq

/-- One parsed item processed by the first module's per-platform loops. -/
inductive ScreenScanItem where
  | winProcess (processName windowTitle : String)
  | winService (serviceName displayName : String)
  | winDevice (deviceName : String)
  | macProcess (processName : String)
  | macPermissionApp (appName : String)
  | linuxProcess (processName : String)
  | linuxCompositor (argsLine : String)

/-- Case-insensitive membership test shared by the loops: some list entry
occurs as a substring of one of the fields. -/
def anyAppMatches (apps : List String) (fields : List String) : Bool :=
  apps.any (fun app => fields.any (fun f => jsIncludes (lowerStr f) (lowerStr app)))

/-- The per-item update of the first module's `checkScreenRecording`,
case by case from lines 1055-1235. -/
def screenScanStep1 (s : RecordingResult) (item : ScreenScanItem) : RecordingResult :=
  match item with
  | .winProcess processName windowTitle =>
    if !anyAppMatches falsePositives1 [processName, windowTitle] then
      if anyAppMatches recordingApps1 [processName, windowTitle] then
        { recording := true,
          applications := s.applications ++
            [processName ++ (if windowTitle ≠ "" then " (" ++ windowTitle ++ ")" else "")] }
      else s
    else s
  | .winService serviceName displayName =>
    if !anyAppMatches falsePositives1 [serviceName, displayName] then
      if anyAppMatches recordingApps1 [serviceName, displayName] then
        { recording := true, applications := s.applications ++ ["Servicio: " ++ displayName] }
      else s
    else s
  | .winDevice deviceName =>
    if !anyAppMatches falsePositives1 [deviceName]
        && jsIncludes (lowerStr deviceName) "capture" then
      let pushed := { s with
        applications := s.applications ++ ["Dispositivo de captura: " ++ deviceName] }
      if !(jsIncludes (lowerStr deviceName) "webcam"
            || jsIncludes (lowerStr deviceName) "camera"
            || jsEndsWith (lowerStr deviceName) "cam") then
        { pushed with recording := true }
      else pushed
    else s
  | .macProcess processName =>
    if !anyAppMatches falsePositives1 [processName] then
      if anyAppMatches recordingApps1 [processName] then
        { recording := true, applications := s.applications ++ [processName] }
      else s
    else s
  | .macPermissionApp appName =>
    if !anyAppMatches falsePositives1 [appName] then
      { s with applications := s.applications ++ [appName ++ " (tiene permisos de captura)"] }
    else s
  | .linuxProcess processName =>
    if !anyAppMatches falsePositives1 [processName] then
      if anyAppMatches recordingApps1 [processName] then
        { recording := true, applications := s.applications ++ [processName] }
      else s
    else s
  | .linuxCompositor argsLine =>
    if jsIncludes argsLine "grep" then s
    else
      { recording := true,
        applications := s.applications ++
          ["Compositor de grabación: " ++ jsSubstringTo 50 argsLine ++ "..."] }

/-- First module `checkScreenRecording` over the parsed items of one run,
starting from `{recording: false, applications: []}` (lines 993-996). -/
def checkScreenRecording1 (items : List ScreenScanItem) : RecordingResult :=
  items.foldl screenScanStep1 { recording := false, applications := [] }

/-- Second module `checkScreenRecording` result construction
(lines 5196-5199) from the accumulated `detectedApps`. -/
def checkScreenRecording2result (detectedApps : List String) : RecordingResult :=
  { recording := decide (0 < detectedApps.length), applications := detectedApps }

/-- Second module `checkScreenRecording` outermost-catch result
(line 5203). -/
def checkScreenRecording2catch : RecordingResult :=
  { recording := false, applications := [] }

/-- A Linux compositor line as matched by the first module's
`ps -e -o args= | grep -E "ffmpeg|gst|..."` branch (lines 1215-1225). -/
def compositorItem : ScreenScanItem :=
  ScreenScanItem.linuxCompositor "ffmpeg -f x11grab -i :0.0 /tmp/out.mp4"

/-! ### Helper lemmas about the sort model -/

theorem mem_insertDesc {key : α → Int} {x z : α} {l : List α} :
    z ∈ insertDesc key x l ↔ z = x ∨ z ∈ l := by
  induction l with
  | nil => simp [insertDesc]
  | cons y ys ih =>
    rw [insertDesc]
    by_cases hxy : key x ≥ key y
    · rw [if_pos hxy]
      simp
    · rw [if_neg hxy]
      simp only [List.mem_cons, ih]
      tauto

theorem pairwise_insertDesc {key : α → Int} (x : α) {l : List α}
    (h : List.Pairwise (fun a b => key b ≤ key a) l) :
    List.Pairwise (fun a b => key b ≤ key a) (insertDesc key x l) := by
  induction l with
  | nil => simp [insertDesc]
  | cons y ys ih =>
    rw [insertDesc]
    by_cases hxy : key x ≥ key y
    · rw [if_pos hxy]
      refine List.Pairwise.cons ?_ h
      intro z hz
      rcases List.mem_cons.mp hz with rfl | hz'
      · exact hxy
      · exact le_trans (List.rel_of_pairwise_cons h hz') hxy
    · rw [if_neg hxy]
      refine List.Pairwise.cons ?_ (ih h.of_cons)
      intro z hz
      rcases mem_insertDesc.mp hz with rfl | hz'
      · exact le_of_lt (lt_of_not_ge hxy)
      · exact List.rel_of_pairwise_cons h hz'

theorem jsSortByDesc_pairwise (key : α → Int) (l : List α) :
    List.Pairwise (fun a b => key b ≤ key a) (jsSortByDesc key l) := by
  induction l with
  | nil => exact List.Pairwise.nil
  | cons x xs ih => exact pairwise_insertDesc x ih

theorem filter_insertDesc (key : α → Int) (t : Int) (x : α) (l : List α) :
    (insertDesc key x l).filter (fun z => decide (key z = t)) =
      if key x = t then x :: l.filter (fun z => decide (key z = t))
      else l.filter (fun z => decide (key z = t)) := by
  induction l with
  | nil =>
    rw [insertDesc]
    by_cases hx : key x = t <;> simp [hx]
  | cons y ys ih =>
    rw [insertDesc]
    by_cases hxy : key x ≥ key y
    · rw [if_pos hxy]
      by_cases hx : key x = t <;> simp [hx, List.filter_cons]
    · rw [if_neg hxy]
      by_cases hx : key x = t
      · have hy : ¬ (key y = t) := fun hy => hxy (le_of_eq (hy.trans hx.symm))
        rw [List.filter_cons, List.filter_cons]
        simp [hy, ih, hx]
      · rw [List.filter_cons, List.filter_cons, ih]
        by_cases hy : key y = t <;> simp [hy, hx]

theorem jsSortByDesc_filter (key : α → Int) (t : Int) (l : List α) :
    (jsSortByDesc key l).filter (fun z => decide (key z = t)) =
      l.filter (fun z => decide (key z = t)) := by
  induction l with
  | nil => rfl
  | cons x xs ih =>
    rw [jsSortByDesc, filter_insertDesc, ih, List.filter_cons]
    by_cases hx : key x = t <;> simp [hx]

theorem filter_pos_iff_exists (p : String → Bool) (l : List String) :
    0 < (l.filter p).length ↔ ∃ x ∈ l, p x = true := by
  rw [List.length_pos]
  constructor
  · intro h
    match hne : l.filter p with
    | [] => exact absurd hne h
    | x :: xs =>
      have hx : x ∈ l.filter p := by rw [hne]; exact List.mem_cons_self _ _
      have hx' := List.mem_filter.mp hx
      exact ⟨x, hx'.1, hx'.2⟩
  · rintro ⟨x, hxl, hpx⟩ hnil
    have hx : x ∈ l.filter p := List.mem_filter.mpr ⟨hxl, hpx⟩
    rw [hnil] at hx
    exact List.not_mem_nil x hx

theorem screenScanStep1_inv (s : RecordingResult) (item : ScreenScanItem)
    (h : s.recording = true → s.applications ≠ []) :
    (screenScanStep1 s item).recording = true →
      (screenScanStep1 s item).applications ≠ [] := by
  cases item <;> simp only [screenScanStep1] <;> repeat' split <;> simp_all

theorem checkScreenRecording1_inv (items : List ScreenScanItem) :
    (checkScreenRecording1 items).recording = true →
      (checkScreenRecording1 items).applications ≠ [] := by
  have gen : ∀ (its : List ScreenScanItem) (s : RecordingResult),
      (s.recording = true → s.applications ≠ []) →
      ((its.foldl screenScanStep1 s).recording = true →
        (its.foldl screenScanStep1 s).applications ≠ []) := by
    intro its
    induction its with
    | nil => intro s h; exact h
    | cons i rest ih =>
      intro s h
      exact ih _ (screenScanStep1_inv s i h)
  exact gen items _ (by intro h; cases h)

/-! ### Claim theorems -/

/-- Claim C1, counterexample: in the first module's
`getRecentlyExecutedJars` the dedup `Set` holds verbatim paths, so two
collected findings whose paths differ only by letter case BOTH appear in
the returned list, contradicting "exactly one of them appears ... for
both systemUtils implementations". -/
theorem claim_C1_counterexample :
    execJarUpper.path ≠ execJarLower.path
      ∧ lowerStr execJarUpper.path = lowerStr execJarLower.path
      ∧ execJarUpper ∈ getRecentlyExecutedJars1post [execJarUpper, execJarLower]
      ∧ execJarLower ∈ getRecentlyExecutedJars1post [execJarUpper, execJarLower] := by
  decide

/-- Claim C1, amended: the second module dedups by lowercased path, so of
two collected findings whose paths agree up to case exactly one (the
first) survives; the first module dedups by verbatim path, so it
collapses the two findings only when the paths are exactly equal. -/
theorem claim_C1_amended :
    (∀ j1 j2 : ExecJarFinding, lowerStr j1.path = lowerStr j2.path →
        getRecentlyExecutedJars2post [j1, j2] = [j1])
      ∧ (∀ j1 j2 : ExecJarFinding, j1.path = j2.path →
        getRecentlyExecutedJars1post [j1, j2] = [j1]) := by
  constructor
  · intro j1 j2 h
    simp [getRecentlyExecutedJars2post, dedupExecutedJars2, dedupExecutedJarsLoop2, ← h,
      jsSortByDesc, insertDesc]
  · intro j1 j2 h
    simp [getRecentlyExecutedJars1post, dedupExecutedJars1, dedupExecutedJarsLoop1, ← h,
      jsSortByDesc, insertDesc]

/-- Claim C1, witness for the amended statement at a concrete input. -/
theorem claim_C1_amended_witness :
    getRecentlyExecutedJars2post [execJarUpper, execJarLower] = [execJarUpper] :=
  claim_C1_amended.1 execJarUpper execJarLower (by decide)

/-- Claim C2, counterexample: the second module's `getOriginalNameGuess`
keeps the first dot-segment and the LAST extension, so on "mod.jar.txt"
it returns "mod.txt", not "mod.jar". -/
theorem claim_C2_counterexample :
    getOriginalNameGuess2 "mod.jar.txt" = "mod.txt"
      ∧ getOriginalNameGuess2 "mod.jar.txt" ≠ "mod.jar" := by
  decide

/-- Claim C2, amended: on "mod.jar.txt" the first module's regex-based
`getOriginalNameGuess` returns "mod.jar", while the second module's
split-based variant returns "mod.txt" (first segment + "." + last
segment); the two implementations diverge on this double-extension name
as well. -/
theorem claim_C2_amended :
    getOriginalNameGuess1 "mod.jar.txt" = some "mod.jar"
      ∧ getOriginalNameGuess2 "mod.jar.txt" = "mod.txt" := by
  decide

/-- Claim C3, counterexample: the second module's `findAllJarFiles`
returns the collected records with no sort, so with an older JAR
collected before a newer one the returned list is not sorted by
`lastModified` descending. -/
theorem claim_C3_counterexample :
    ¬ List.Pairwise (fun a b => b.lastModified ≤ a.lastModified)
      (findAllJarFiles2post [jarOld] [jarNew]) := by
  decide

/-- Claim C3, amended: the first module's `findAllJarFiles` sorts by
`lastModified` descending; the second module's returns the findings in
collection order — the common-location findings followed, when fewer
than 10 were found, by the drive-walk findings — with no sort. -/
theorem claim_C3_amended :
    (∀ collected : List JarFileInfo,
        List.Pairwise (fun a b => b.lastModified ≤ a.lastModified)
          (findAllJarFiles1post collected))
      ∧ (∀ common drives : List JarFileInfo,
        findAllJarFiles2post common drives = common ++ drives
          ∨ findAllJarFiles2post common drives = common) := by
  constructor
  · intro l
    exact jsSortByDesc_pairwise _ l
  · intro c d
    rw [findAllJarFiles2post]
    split
    · exact Or.inl rfl
    · exact Or.inr rfl

/-- Claim C4: every registered `ipcMain.handle` handler is a try/catch
wrapper — when its probe computation throws, the handler returns the
`{error: message}` object; when it returns a value, the handler passes
the value through unchanged. -/
theorem claim_C4 :
    ∀ (α : Type) (h : String × (JsOutcome α → IpcResponse α)),
      h ∈ ipcHandlers α →
        (∀ m : String, h.2 (JsOutcome.thrown m) = IpcResponse.errorObj m)
          ∧ (∀ v : α, h.2 (JsOutcome.ok v) = IpcResponse.result v) := by
  intro α h hmem
  simp only [ipcHandlers, List.mem_cons, List.not_mem_nil, or_false] at hmem
  rcases hmem with rfl | rfl | rfl | rfl | rfl | rfl | rfl | rfl | rfl | rfl | rfl | rfl |
    rfl | rfl | rfl | rfl <;>
    exact ⟨fun _ => rfl, fun _ => rfl⟩

/-- Claim C4, witness: the `find-jar-files` handler on a thrown error. -/
theorem claim_C4_witness :
    handleFindJarFiles (JsOutcome.thrown "exec failed")
      = (IpcResponse.errorObj "exec failed" : IpcResponse Nat) :=
  (claim_C4 Nat ("find-jar-files", handleFindJarFiles)
    (List.mem_cons_self _ _)).1 "exec failed"

/-- Claim C5, counterexample: the first module exports
`registerSelfDestruct`, which writes a batch script to the temp
directory (and has it delete the application executable and itself);
this filesystem mutation is not part of the browser-history temp-copy
handling, contradicting "no other exported function creates, writes, or
deletes any file". -/
theorem claim_C5_counterexample :
    fsWriteOps SystemUtilsExport.m1_registerSelfDestruct ≠ []
      ∧ isBrowserHistoryTempUse SystemUtilsExport.m1_registerSelfDestruct = false := by
  decide

/-- Claim C5, amended: every export of either module is read-only on the
filesystem except the browser-history temp-copy handling inside the two
`detectMinecraftCheats` variants, the first module's `getCommandHistory`
(temp file for the `doskey` output, deleted after use), and the first
module's `registerSelfDestruct` (self-delete batch script). -/
theorem claim_C5_amended :
    ∀ f : SystemUtilsExport, fsWriteOps f ≠ [] →
      f = SystemUtilsExport.m1_detectMinecraftCheats
        ∨ f = SystemUtilsExport.m2_detectMinecraftCheats
        ∨ f = SystemUtilsExport.m1_getCommandHistory
        ∨ f = SystemUtilsExport.m1_registerSelfDestruct := by
  decide

/-- Claim C5, witness for the amended statement. -/
theorem claim_C5_amended_witness :
    SystemUtilsExport.m1_registerSelfDestruct = SystemUtilsExport.m1_detectMinecraftCheats
      ∨ SystemUtilsExport.m1_registerSelfDestruct = SystemUtilsExport.m2_detectMinecraftCheats
      ∨ SystemUtilsExport.m1_registerSelfDestruct = SystemUtilsExport.m1_getCommandHistory
      ∨ SystemUtilsExport.m1_registerSelfDestruct = SystemUtilsExport.m1_registerSelfDestruct :=
  claim_C5_amended SystemUtilsExport.m1_registerSelfDestruct (by decide)

/-- Claim C6: in `scanMinecraftMods` a mod file is pushed onto
`suspiciousMods` exactly when its lowercased name contains a suspicious
keyword and no whitelisted substring; "killaura-client.jar" is flagged,
"OptiFine-1.19.jar" is not, and the same two examples behave identically
under `checkMinecraftModFolders`' keyword-only condition. -/
theorem claim_C6 :
    (∀ fileName : String,
        scanModFlagged fileName = true ↔
          ((∃ k ∈ scanSuspiciousKeywords, k.data <:+: (lowerStr fileName).data)
            ∧ ¬ ∃ w ∈ scanWhitelistedMods, w.data <:+: (lowerStr fileName).data))
      ∧ scanModFlagged "killaura-client.jar" = true
      ∧ scanModFlagged "OptiFine-1.19.jar" = false
      ∧ folderModFlagged "killaura-client.jar" = true
      ∧ folderModFlagged "OptiFine-1.19.jar" = false := by
  refine ⟨?_, by decide, by decide, by decide, by decide⟩
  intro fileName
  simp only [scanModFlagged, scanSuspiciousNameKeywords, scanModIsWhitelisted, jsIncludes,
    Bool.and_eq_true, decide_eq_true_eq, Bool.not_eq_true', List.any_eq_false,
    filter_pos_iff_exists, not_exists, not_and]

/-- Claim C7, counterexample: in `checkBrowserHistoryFiles`, when the
copy succeeds and the SQL query (`execAsync`) then throws, control jumps
to the per-file catch, the `unlinkSync` line is never reached, and the
temporary copy is left behind. -/
theorem claim_C7_counterexample :
    tempCopyLeftBehind true false true true = true := by
  decide

/-- Claim C7, amended: the history file is copied to the temp path before
the query reads it, and the copy is deleted (with deletion errors
swallowed) only on the path where the query returned; the temporary copy
is left behind exactly when the copy succeeded and then the query threw
or the deletion itself failed. -/
theorem claim_C7_amended :
    ∀ copyOk queryOk unlinkOk parseOk : Bool,
      tempCopyLeftBehind copyOk queryOk unlinkOk parseOk
        = (copyOk && (!queryOk || !unlinkOk)) := by
  decide

/-- Claim C8: both `getRecentlyDeletedFiles` variants return the
collected findings sorted by `deletedTime` descending, and findings with
equal `deletedTime` keep the relative order in which they were collected
(stable sort; the second variant's truncation to 20 preserves both
properties). -/
theorem claim_C8 :
    ∀ (collected : List DeletedFinding) (t : Int),
      List.Pairwise (fun a b => b.deletedTime ≤ a.deletedTime)
          (getRecentlyDeletedFiles1post collected)
        ∧ (getRecentlyDeletedFiles1post collected).filter
            (fun f => decide (f.deletedTime = t)) =
          collected.filter (fun f => decide (f.deletedTime = t))
        ∧ List.Pairwise (fun a b => b.deletedTime ≤ a.deletedTime)
            (getRecentlyDeletedFiles2post collected)
        ∧ ((getRecentlyDeletedFiles2post collected).filter
            (fun f => decide (f.deletedTime = t))).Sublist
          (collected.filter (fun f => decide (f.deletedTime = t))) := by
  intro l t
  refine ⟨jsSortByDesc_pairwise _ l, jsSortByDesc_filter _ t l, ?_, ?_⟩
  · exact List.Pairwise.sublist (List.take_sublist _ _) (jsSortByDesc_pairwise _ l)
  · have h1 : ((jsSortByDesc (fun f => f.deletedTime) l).take 20).Sublist
        (jsSortByDesc (fun f => f.deletedTime) l) := List.take_sublist _ _
    have h2 := h1.filter (fun f => decide (f.deletedTime = t))
    rw [jsSortByDesc_filter] at h2
    exact h2

/-- Claim C9: the second module's `getRecentlyDeletedFiles` never returns
more than 20 findings — after the descending sort the result is cut with
`.slice(0, 20)` regardless of how many findings were collected. -/
theorem claim_C9 :
    ∀ collected : List DeletedFinding,
      (getRecentlyDeletedFiles2post collected).length ≤ 20
        ∧ getRecentlyDeletedFiles2post collected =
          (jsSortByDesc (fun f => f.deletedTime) collected).take 20 := by
  intro l
  refine ⟨?_, rfl⟩
  rw [getRecentlyDeletedFiles2post, List.length_take]
  exact min_le_left _ _

/-- Claim C10: whenever either `checkScreenRecording` variant reports
`recording = true`, its `applications` list is non-empty — in the first
module every update that sets `recording` also pushes an entry, and the
second module defines `recording` as `detectedApps.length > 0` (its
outermost catch reports `recording = false`). -/
theorem claim_C10 :
    (∀ items : List ScreenScanItem,
        (checkScreenRecording1 items).recording = true →
          (checkScreenRecording1 items).applications ≠ [])
      ∧ (∀ detectedApps : List String,
        (checkScreenRecording2result detectedApps).recording = true →
          (checkScreenRecording2result detectedApps).applications ≠ [])
      ∧ checkScreenRecording2catch.recording = false := by
  refine ⟨checkScreenRecording1_inv, ?_, rfl⟩
  intro apps h
  simp only [checkScreenRecording2result, decide_eq_true_eq] at h ⊢
  exact List.length_pos.mp h

/-- Claim C10, witness: a run of the first module that saw an `ffmpeg`
compositor process reports `recording = true` with a non-empty
application list. -/
theorem claim_C10_witness :
    (checkScreenRecording1 [compositorItem]).applications ≠ [] :=
  claim_C10.1 [compositorItem] (by decide)
